import Mathlib

/-!
# Verification of the acquisitions user-management API

Shallow embedding of the repository's authentication and user CRUD flow:
the user table is a list of rows, the database statements of the services
(`select … where … limit 1`, `insert … returning`, `update … set … where`,
`delete … where … returning`) become list operations, and each Express
controller becomes a function from the request data and the current table
to an HTTP response together with the table after the request.

Sources embedded:
- `src/services/auth.service.js`   (hashPassword, comparePassword,
  authenticateUser, createUser)
- `src/services/users.services.js` (getAllUsers, getUserById, updateUser,
  deleteUser)
- `src/controllers/users.controller.js`
- the auth controller (signup, signin, signout) and the users router
- `src/middleware/auth.middleware.js` (authenticateToken, requireRole)

The zod validation schemas, the jwt helper and the cookie helper are not
present in the repository snapshot; the definitions for them below are
modelled from the spec and say so in their doc comments.
-/

namespace Acq

/-- A row of the `users` table (`user.model.js` / the SQL schema in the
README): serial id, name, unique email, password (stored hashed), role
defaulting to `user`, and two timestamps.  Timestamps are modelled as
natural numbers. -/
structure User where
  id : Nat
  name : String
  email : String
  password : String
  role : String
  created_at : Nat
  updated_at : Nat
  deriving Repr, DecidableEq

/-- The user table: the only persistent state the application touches. -/
abbrev DB := List User

/-- `bcryptjs.hashSync(password, 12)` of `auth.service.js`.  Modelled as a
fixed injective tagging function: bcrypt's contract is that `compare`
succeeds exactly on the plaintext the hash was produced from, which the
pair `hashPassword`/`comparePassword` below realises. -/
def hashPassword (password : String) : String :=
  "$2b$12$" ++ password

/-- `bcryptjs.compare(password, hashedPassword)` of `auth.service.js`:
true iff the stored value is the hash of the supplied plaintext. -/
def comparePassword (password hashedPassword : String) : Bool :=
  hashPassword password == hashedPassword

/-- `db.select().from(users).where(eq(users.email, email)).limit(1)`:
the rows whose email matches, truncated to at most one. -/
def selectByEmail (db : DB) (email : String) : List User :=
  (db.filter (fun u => u.email == email)).take 1

/-- `db.select(...).from(users).where(eq(users.id, id)).limit(1)`. -/
def selectById (db : DB) (id : Nat) : List User :=
  (db.filter (fun u => u.id == id)).take 1

/-- The projection `authenticateUser` and `createUser` return:
`{id, name, email, role, created_at}` — no password field. -/
structure AuthProjection where
  id : Nat
  name : String
  email : String
  role : String
  created_at : Nat
  deriving Repr, DecidableEq

/-- Project a row the way `auth.service.js` does. -/
def authProjOf (u : User) : AuthProjection :=
  { id := u.id, name := u.name, email := u.email, role := u.role
    created_at := u.created_at }

/-- `authenticateUser({email, password})` of `auth.service.js`: select by
email limit 1; empty → throw `User not found`; hash mismatch → throw
`Invalid password`; else return the projection.  Errors are the thrown
message strings, since the controllers match on them by content. -/
def authenticateUser (db : DB) (email password : String) :
    Except String AuthProjection :=
  match selectByEmail db email with
  | [] => .error "User not found"
  | user :: _ =>
      if comparePassword password user.password then
        .ok (authProjOf user)
      else
        .error "Invalid password"

/-- The serial primary key the database generates for the next insert:
one more than the largest id in the table. -/
def nextId (db : DB) : Nat :=
  db.foldr (fun u m => max u.id m) 0 + 1

/-- `createUser({name, email, password, role = 'user'})` of
`auth.service.js`: re-check email uniqueness, throw
`User with this email already exists` on a hit, otherwise hash the
password, insert the row (ids and timestamps supplied by the database,
here `nextId` and `now`), and return the `AuthProjection` of the new
row.  Returns the new table alongside, since the insert is the write. -/
def createUser (db : DB) (now : Nat) (name email password role : String) :
    Except String (AuthProjection × DB) :=
  if (selectByEmail db email).length > 0 then
    .error "User with this email already exists"
  else
    let newUser : User :=
      { id := nextId db, name := name, email := email
        password := hashPassword password, role := role
        created_at := now, updated_at := now }
    .ok (authProjOf newUser, db ++ [newUser])

/-- The projection `users.services.js` selects for reads and updates:
`{id, email, name, role, created_at, updated_at}` — no password field. -/
structure UserView where
  id : Nat
  email : String
  name : String
  role : String
  created_at : Nat
  updated_at : Nat
  deriving Repr, DecidableEq

/-- Project a row the way `users.services.js` selects it. -/
def viewOf (u : User) : UserView :=
  { id := u.id, email := u.email, name := u.name, role := u.role
    created_at := u.created_at, updated_at := u.updated_at }

/-- The projection `deleteUser` returns: `{id, name, email, role}`. -/
structure DeletedView where
  id : Nat
  name : String
  email : String
  role : String
  deriving Repr, DecidableEq

/-- Project a row the way the delete statement's returning clause does. -/
def deletedViewOf (u : User) : DeletedView :=
  { id := u.id, name := u.name, email := u.email, role := u.role }

/-- `getAllUsers()` of `users.services.js`: select the projection of
every row, no filter, no pagination. -/
def getAllUsers (db : DB) : List UserView :=
  db.map viewOf

/-- `getUserById(id)` of `users.services.js`: select by id limit 1,
throw `User not found` on the empty result. -/
def getUserById (db : DB) (id : Nat) : Except String UserView :=
  match selectById db id with
  | [] => .error "User not found"
  | user :: _ => .ok (viewOf user)

/-- The parsed partial-update body (`updateUserSchema`): every field
optional; a field absent from the request body is `none`. -/
structure UpdatePatch where
  name : Option String := none
  email : Option String := none
  password : Option String := none
  role : Option String := none
  deriving Repr, DecidableEq

/-- JavaScript truthiness of an optional string field, as used by
`if (updates.password)` and `if (updates.role && …)`: present and not
the empty string. -/
def truthy : Option String → Bool
  | none => false
  | some s => s ≠ ""

/-- The `update … set` applied to one row: the present patch fields
overwrite the row's fields (with the password hashed beforehand when its
field is truthy, as `updateUser` does), and `updated_at` is refreshed. -/
def applyPatch (p : UpdatePatch) (now : Nat) (u : User) : User :=
  { u with
    name := p.name.getD u.name
    email := p.email.getD u.email
    password :=
      match p.password with
      | none => u.password
      | some pw => if pw ≠ "" then hashPassword pw else pw
    role := p.role.getD u.role
    updated_at := now }

/-- `updateUser(id, updates)` of `users.services.js`: check existence
(select by id limit 1, throw `User not found` on miss); hash
`updates.password` when truthy; `update … set … where id = id` over the
table; return the projection of the first updated row together with the
new table. -/
def updateUser (db : DB) (id : Nat) (p : UpdatePatch) (now : Nat) :
    Except String (UserView × DB) :=
  match selectById db id with
  | [] => .error "User not found"
  | target :: _ =>
      let db' := db.map (fun u => if u.id == id then applyPatch p now u else u)
      .ok (viewOf (applyPatch p now target), db')

/-- `deleteUser(id)` of `users.services.js`: check existence, throw
`User not found` on miss; `delete … where id = id returning …`; return
the deleted row's projection with the new table. -/
def deleteUser (db : DB) (id : Nat) :
    Except String (DeletedView × DB) :=
  match selectById db id with
  | [] => .error "User not found"
  | target :: _ =>
      .ok (deletedViewOf target, db.filter (fun u => ¬ u.id == id))

/-! ## Token, cookie and validation helpers

The jwt helper (`utils/jwt.js`), the cookie helper (`utils/cookies.js`)
and the zod schemas (`validations/*.js`) are not in the repository
snapshot; they are modelled from the spec below. -/

/-- The claims payload signed into the token:
`{id, email, role}` (also what the middleware attaches as `req.user`). -/
structure Claims where
  id : Nat
  email : String
  role : String
  deriving Repr, DecidableEq

/-- Modelled from the spec: `jwttoken.sign` of the missing `utils/jwt.js`
"signs a small claims payload (subject id, email, role) into a compact
signed token".  The signed token is modelled as an injective encoding of
the claims. -/
def jwtSign (c : Claims) : String :=
  "jwt." ++ toString c.id ++ "." ++ c.email ++ "." ++ c.role

/-- The raw sign-up request body before validation. -/
structure SignupBody where
  name : String
  email : String
  password : String
  role : Option String := none
  deriving Repr, DecidableEq

/-- Modelled from the spec: `signupSchema` of the missing
`validations/auth.validation.js`.  The spec requires name, email and
password to be present and non-empty, and restricts role — when supplied
— to the two known values `user` and `admin` (role is optional and
defaults later). -/
def signupValidate (b : SignupBody) : Bool :=
  b.name ≠ "" && b.email ≠ "" && b.password ≠ "" &&
    (b.role = none || b.role = some "user" || b.role = some "admin")

/-- The raw sign-in request body before validation. -/
structure SigninBody where
  email : String
  password : String
  deriving Repr, DecidableEq

/-- Modelled from the spec: `signInSchema` of the missing
`validations/auth.validation.js` — email and password required. -/
def signinValidate (b : SigninBody) : Bool :=
  b.email ≠ "" && b.password ≠ ""

/-- Modelled from the spec: `updateUserSchema` of the missing
`validations/users.validation.js` — all fields optional; a supplied
password must be non-empty (plaintext is never persisted, and password
is stored only as a hash); a supplied role must be one of the two known
values. -/
def updateValidate (p : UpdatePatch) : Bool :=
  (p.password = none || p.password ≠ some "") &&
    (p.role = none || p.role = some "user" || p.role = some "admin")

/-! ## HTTP responses -/

/-- The JSON payload shapes the controllers produce.  The user-carrying
constructors hold the projection structures, which have no password
field. -/
inductive Body where
  | err (msg : String)
  | signedUp (id : Nat) (name email role : String)
  | signedIn (id : Nat) (name email role : String)
  | signedOut
  | userList (users : List UserView) (count : Nat)
  | oneUser (user : UserView)
  | deletedUser (user : DeletedView)
  deriving Repr, DecidableEq

/-- An HTTP response: status, JSON body, and the `token` cookie when the
handler sets one (`cookies.set(res, 'token', token)` — the cookie helper
is modelled from the spec as attaching the named value to the
response). -/
structure Response where
  status : Nat
  body : Body
  cookie : Option (String × String) := none
  deriving Repr, DecidableEq

/-! ## Auth controller (signup / signin / signout) -/

/-- The `signup` handler of the auth controller: validate the body
(400 on failure), call `createUser`, map the duplicate-email message to
409, and on success sign a jwt over `{id, email, role}` of the new user,
set it as the `token` cookie, and answer 201 with
`{id, name, email, role}` of the new user.  An unmatched error goes to
the generic handler as 500.  The resulting table is returned
alongside. -/
def signup (db : DB) (now : Nat) (b : SignupBody) : Response × DB :=
  if ¬ signupValidate b then
    ({ status := 400, body := .err "Validation failed" }, db)
  else
    match createUser db now b.name b.email b.password (b.role.getD "user") with
    | .error e =>
        if e == "User with this email already exists" then
          ({ status := 409, body := .err e }, db)
        else
          ({ status := 500, body := .err e }, db)
    | .ok (u, db') =>
        let token := jwtSign { id := u.id, email := u.email, role := u.role }
        ({ status := 201
           body := .signedUp u.id u.name u.email u.role
           cookie := some ("token", token) }, db')

/-- The `signin` handler: validate (400), call `authenticateUser`, map
`User not found` to 404 and `Invalid password` to 401, and on success
sign a jwt, set the `token` cookie, and answer 200 with
`{id, name, email, role}`.  The handler issues no write, so the table is
passed through unchanged. -/
def signin (db : DB) (b : SigninBody) : Response × DB :=
  if ¬ signinValidate b then
    ({ status := 400, body := .err "Validation failed" }, db)
  else
    match authenticateUser db b.email b.password with
    | .error e =>
        if e == "User not found" then
          ({ status := 404, body := .err "User not found" }, db)
        else if e == "Invalid password" then
          ({ status := 401, body := .err "Invalid credentials" }, db)
        else
          ({ status := 500, body := .err e }, db)
    | .ok u =>
        let token := jwtSign { id := u.id, email := u.email, role := u.role }
        ({ status := 200
           body := .signedIn u.id u.name u.email u.role
           cookie := some ("token", token) }, db)

/-- The `signout` handler: clear the `token` cookie and answer 200. -/
def signout (db : DB) : Response × DB :=
  ({ status := 200, body := .signedOut, cookie := some ("token", "") }, db)

/-! ## Users controller -/

/-- The `getAllUsers` handler of `users.controller.js`: no validation,
no role or ownership check — answer 200 with every user's projection and
the count.  `caller` is `req.user` attached by the middleware; the
handler never reads it. -/
def getAllUsersC (caller : Claims) (db : DB) : Response × DB :=
  let _ := caller
  let us := getAllUsers db
  ({ status := 200, body := .userList us us.length }, db)

/-- The `getUserById` handler of `users.controller.js`: validate the id
parameter, call the service, map `User not found` to 404, else 200 with
the projection.  No role or ownership check; `caller` is unread.  The id
arrives already parsed by `userIdSchema` (a positive integer). -/
def getUserByIdC (caller : Claims) (db : DB) (id : Nat) : Response × DB :=
  let _ := caller
  match getUserById db id with
  | .error _ =>
      ({ status := 404, body := .err "User not found" }, db)
  | .ok u =>
      ({ status := 200, body := .oneUser u }, db)

/-- The `updateUser` handler of `users.controller.js`: validate the id
and the body (400); 403 unless the caller is an admin or the target
(`req.user.role !== 'admin' && req.user.id !== id`); 403 when the patch
carries a truthy role and the caller is not an admin; then call the
service, mapping `User not found` to 404, else 200 with the updated
projection. -/
def updateUserC (caller : Claims) (db : DB) (now : Nat) (id : Nat)
    (p : UpdatePatch) : Response × DB :=
  if ¬ updateValidate p then
    ({ status := 400, body := .err "Validation failed" }, db)
  else if caller.role ≠ "admin" ∧ caller.id ≠ id then
    ({ status := 403, body := .err "Access denied" }, db)
  else if truthy p.role ∧ caller.role ≠ "admin" then
    ({ status := 403, body := .err "Access denied" }, db)
  else
    match updateUser db id p now with
    | .error _ =>
        ({ status := 404, body := .err "User not found" }, db)
    | .ok (u, db') =>
        ({ status := 200, body := .oneUser u }, db')

/-- The `deleteUser` handler of `users.controller.js`: validate the id
(400); 403 unless the caller is an admin or the target; 403 when an
admin targets their own id; then call the service, mapping
`User not found` to 404, else 200 with the deleted projection. -/
def deleteUserC (caller : Claims) (db : DB) (id : Nat) : Response × DB :=
  if caller.role ≠ "admin" ∧ caller.id ≠ id then
    ({ status := 403, body := .err "Access denied" }, db)
  else if caller.role = "admin" ∧ caller.id = id then
    ({ status := 403, body := .err "Action not allowed" }, db)
  else
    match deleteUser db id with
    | .error _ =>
        ({ status := 404, body := .err "User not found" }, db)
    | .ok (u, db') =>
        ({ status := 200, body := .deletedUser u }, db')

/-! ## Auth middleware and the users router -/

/-- `authenticateToken` of `auth.middleware.js`: read `req.cookies.token`;
absent → 401; verification failure → 401; otherwise attach the decoded
claims.  `verify` stands for `jwttoken.verify`, which either decodes the
token or throws. -/
def authenticateToken (verify : String → Option Claims)
    (cookieToken : Option String) : Except Nat Claims :=
  match cookieToken with
  | none => .error 401
  | some t =>
      match verify t with
      | none => .error 401
      | some decoded => .ok decoded

/-- `requireRole(roles)` of `auth.middleware.js`: 401 when no user is
attached, 403 when the attached role is not in the allowed list,
otherwise pass. -/
def requireRole (roles : List String) (user : Option Claims) :
    Except Nat Claims :=
  match user with
  | none => .error 401
  | some u => if roles.contains u.role then .ok u else .error 403

/-- Run a protected route: the middleware first, the handler only when
it passes — on 401 the handler is never invoked. -/
def runProtected (verify : String → Option Claims)
    (cookieToken : Option String) (db : DB)
    (handler : Claims → DB → Response × DB) : Response × DB :=
  match authenticateToken verify cookieToken with
  | .error s => ({ status := s, body := .err "Access denied" }, db)
  | .ok claims => handler claims db

/-- The four users routes of the router file. -/
inductive RouteHandler where
  | getAll
  | getById
  | update
  | delete
  deriving Repr, DecidableEq

/-- A middleware occurrence in a route definition. -/
inductive Mw where
  | authenticate
  | roleGuard (roles : List String)
  deriving Repr, DecidableEq

/-- The users router (`express.Router()`): method, path, the middleware
chain, the handler — transcribed route by route. -/
def userRoutes : List (String × String × List Mw × RouteHandler) :=
  [ ("GET", "/", [.authenticate], .getAll)
  , ("GET", "/:id", [.authenticate], .getById)
  , ("PUT", "/:id", [.authenticate], .update)
  , ("DELETE", "/:id", [.authenticate], .delete) ]

/-- The storage invariant of the user table: every stored password field
holds a (salted) hash — the image of some plaintext under
`hashPassword` — never the plaintext itself. -/
def PasswordsHashed (db : DB) : Prop :=
  ∀ u ∈ db, ∃ p : String, u.password = hashPassword p

/-! ## Helper lemmas about the select statements -/

theorem selectByEmail_eq_nil {db : DB} {e : String} :
    selectByEmail db e = [] ↔ ∀ u ∈ db, u.email ≠ e := by
  simp only [selectByEmail, List.take_eq_nil_iff, List.filter_eq_nil_iff]
  simp

theorem selectByEmail_length_pos {db : DB} {e : String} :
    0 < (selectByEmail db e).length ↔ ∃ u ∈ db, u.email = e := by
  rw [List.length_pos, Ne, selectByEmail_eq_nil]
  push_neg
  simp

theorem selectById_eq_nil {db : DB} {i : Nat} :
    selectById db i = [] ↔ ∀ u ∈ db, u.id ≠ i := by
  simp only [selectById, List.take_eq_nil_iff, List.filter_eq_nil_iff]
  simp

/-! ## C1 -/

/-- C1: for a validated registration whose email already belongs to a
user, signup answers 409 and the table is unchanged (so the existing
row is unaffected); for a fresh email, signup hashes the password,
appends exactly one row, and answers 201 with the public projection of
that row (a body shape carrying no password field). -/
theorem C1_register_duplicate_or_insert (db : DB) (now : Nat)
    (b : SignupBody) (hv : signupValidate b = true) :
    ((∃ u ∈ db, u.email = b.email) →
      (signup db now b).1.status = 409 ∧ (signup db now b).2 = db) ∧
    ((∀ u ∈ db, u.email ≠ b.email) →
      ∃ nu : User,
        (signup db now b).2 = db ++ [nu] ∧
        nu.name = b.name ∧ nu.email = b.email ∧
        nu.password = hashPassword b.password ∧
        (signup db now b).1.status = 201 ∧
        (signup db now b).1.body = .signedUp nu.id nu.name nu.email nu.role) := by
  constructor
  · intro hdup
    have hpos : 0 < (selectByEmail db b.email).length :=
      selectByEmail_length_pos.mpr hdup
    simp [signup, hv, createUser, hpos]
  · intro hfresh
    have hnil : selectByEmail db b.email = [] :=
      selectByEmail_eq_nil.mpr hfresh
    refine ⟨{ id := nextId db, name := b.name, email := b.email
              password := hashPassword b.password
              role := b.role.getD "user"
              created_at := now, updated_at := now }, ?_⟩
    simp [signup, hv, createUser, hnil, authProjOf]

/-- Witness for C1 at a concrete input. -/
theorem C1_register_duplicate_or_insert_witness :
    signupValidate { name := "John", email := "john@example.com",
                     password := "password123" } = true ∧
    (((∃ u ∈ ([] : DB), u.email = "john@example.com") →
        (signup [] 0 { name := "John", email := "john@example.com",
                       password := "password123" }).1.status = 409 ∧
        (signup [] 0 { name := "John", email := "john@example.com",
                       password := "password123" }).2 = []) ∧
      ((∀ u ∈ ([] : DB), u.email ≠ "john@example.com") →
        ∃ nu : User,
          (signup [] 0 { name := "John", email := "john@example.com",
                         password := "password123" }).2 = [] ++ [nu] ∧
          nu.name = "John" ∧ nu.email = "john@example.com" ∧
          nu.password = hashPassword "password123" ∧
          (signup [] 0 { name := "John", email := "john@example.com",
                         password := "password123" }).1.status = 201 ∧
          (signup [] 0 { name := "John", email := "john@example.com",
                         password := "password123" }).1.body =
            .signedUp nu.id nu.name nu.email nu.role)) :=
  ⟨by decide, C1_register_duplicate_or_insert [] 0
    { name := "John", email := "john@example.com", password := "password123" }
    (by decide)⟩

/-! ## C2 -/

/-- C2: for a validated sign-in, signin answers 404 when no row matches
the email, 401 when the first matching row's hash comparison fails, and
200 with the public projection when it succeeds; the status is always
one of these three, so exactly one outcome occurs. -/
theorem C2_signin_trichotomy (db : DB) (b : SigninBody)
    (hv : signinValidate b = true) :
    ((∀ u ∈ db, u.email ≠ b.email) →
      (signin db b).1.status = 404) ∧
    (∀ u rest, selectByEmail db b.email = u :: rest →
      (comparePassword b.password u.password = false →
        (signin db b).1.status = 401) ∧
      (comparePassword b.password u.password = true →
        (signin db b).1.status = 200 ∧
        (signin db b).1.body = .signedIn u.id u.name u.email u.role)) ∧
    ((signin db b).1.status = 404 ∨ (signin db b).1.status = 401 ∨
      (signin db b).1.status = 200) := by
  refine ⟨?_, ?_, ?_⟩
  · intro hfresh
    have hnil : selectByEmail db b.email = [] :=
      selectByEmail_eq_nil.mpr hfresh
    simp [signin, hv, authenticateUser, hnil]
  · intro u rest hsel
    constructor
    · intro hcmp
      simp [signin, hv, authenticateUser, hsel, hcmp]
    · intro hcmp
      simp [signin, hv, authenticateUser, hsel, hcmp, authProjOf]
  · rcases hsel : selectByEmail db b.email with _ | ⟨u, rest⟩
    · left
      simp [signin, hv, authenticateUser, hsel]
    · rcases hcmp : comparePassword b.password u.password
      · right; left
        simp [signin, hv, authenticateUser, hsel, hcmp]
      · right; right
        simp [signin, hv, authenticateUser, hsel, hcmp]

/-- Witness for C2 at a concrete input: one stored user, wrong then
right password handled through the theorem's conjuncts. -/
theorem C2_signin_trichotomy_witness :
    signinValidate { email := "a@x.com", password := "secret1" } = true ∧
    (((∀ u ∈ ([{ id := 1, name := "A", email := "a@x.com",
                 password := hashPassword "secret1", role := "user",
                 created_at := 0, updated_at := 0 }] : DB),
          u.email ≠ "a@x.com") →
        (signin [{ id := 1, name := "A", email := "a@x.com",
                   password := hashPassword "secret1", role := "user",
                   created_at := 0, updated_at := 0 }]
            { email := "a@x.com", password := "secret1" }).1.status = 404) ∧
      (∀ u rest,
        selectByEmail [{ id := 1, name := "A", email := "a@x.com",
                         password := hashPassword "secret1", role := "user",
                         created_at := 0, updated_at := 0 }] "a@x.com" =
          u :: rest →
        (comparePassword "secret1" u.password = false →
          (signin [{ id := 1, name := "A", email := "a@x.com",
                     password := hashPassword "secret1", role := "user",
                     created_at := 0, updated_at := 0 }]
              { email := "a@x.com", password := "secret1" }).1.status = 401) ∧
        (comparePassword "secret1" u.password = true →
          (signin [{ id := 1, name := "A", email := "a@x.com",
                     password := hashPassword "secret1", role := "user",
                     created_at := 0, updated_at := 0 }]
              { email := "a@x.com", password := "secret1" }).1.status = 200 ∧
          (signin [{ id := 1, name := "A", email := "a@x.com",
                     password := hashPassword "secret1", role := "user",
                     created_at := 0, updated_at := 0 }]
              { email := "a@x.com", password := "secret1" }).1.body =
            .signedIn u.id u.name u.email u.role)) ∧
      ((signin [{ id := 1, name := "A", email := "a@x.com",
                  password := hashPassword "secret1", role := "user",
                  created_at := 0, updated_at := 0 }]
          { email := "a@x.com", password := "secret1" }).1.status = 404 ∨
        (signin [{ id := 1, name := "A", email := "a@x.com",
                   password := hashPassword "secret1", role := "user",
                   created_at := 0, updated_at := 0 }]
            { email := "a@x.com", password := "secret1" }).1.status = 401 ∨
        (signin [{ id := 1, name := "A", email := "a@x.com",
                   password := hashPassword "secret1", role := "user",
                   created_at := 0, updated_at := 0 }]
            { email := "a@x.com", password := "secret1" }).1.status = 200)) :=
  ⟨by decide,
    C2_signin_trichotomy
      [{ id := 1, name := "A", email := "a@x.com",
         password := hashPassword "secret1", role := "user",
         created_at := 0, updated_at := 0 }]
      { email := "a@x.com", password := "secret1" } (by decide)⟩

/-! ## C3 -/

/-- C3 counterexample: a successful authenticate leaves the user table
exactly as it was — it writes zero rows, not "exactly one row" as the
claim states for both operations. -/
theorem C3_counterexample_authenticate_writes_nothing :
    (signin [{ id := 1, name := "A", email := "a@x.com",
               password := hashPassword "secret1", role := "user",
               created_at := 0, updated_at := 0 }]
        { email := "a@x.com", password := "secret1" }).1.status = 200 ∧
    (signin [{ id := 1, name := "A", email := "a@x.com",
               password := hashPassword "secret1", role := "user",
               created_at := 0, updated_at := 0 }]
        { email := "a@x.com", password := "secret1" }).2 =
      [{ id := 1, name := "A", email := "a@x.com",
         password := hashPassword "secret1", role := "user",
         created_at := 0, updated_at := 0 }] := by
  constructor
  · decide
  · decide

/-- C3 amended: register writes exactly one row (the appended insert) on
success and no rows on failure; authenticate performs only a read and
never writes — the table after sign-in is always the table before; the
user table is the only state either operation touches. -/
theorem C3_write_effects (db : DB) (now : Nat) (b : SignupBody)
    (c : SigninBody) :
    ((signup db now b).1.status = 201 →
      ∃ nu : User, (signup db now b).2 = db ++ [nu]) ∧
    ((signup db now b).1.status ≠ 201 → (signup db now b).2 = db) ∧
    (signin db c).2 = db := by
  refine ⟨?_, ?_, ?_⟩
  · intro h201
    by_cases hv : signupValidate b = true
    · by_cases hpos : 0 < (selectByEmail db b.email).length
      · exfalso
        simp [signup, hv, createUser, hpos] at h201
      · refine ⟨{ id := nextId db, name := b.name, email := b.email
                  password := hashPassword b.password
                  role := b.role.getD "user"
                  created_at := now, updated_at := now }, ?_⟩
        simp [signup, hv, createUser, hpos]
    · exfalso
      simp [signup, hv] at h201
  · intro hne
    by_cases hv : signupValidate b = true
    · by_cases hpos : 0 < (selectByEmail db b.email).length
      · simp [signup, hv, createUser, hpos]
      · exfalso
        exact hne (by simp [signup, hv, createUser, hpos])
    · simp [signup, hv]
  · by_cases hv : signinValidate c = true
    · rcases hsel : selectByEmail db c.email with _ | ⟨u, rest⟩
      · simp [signin, hv, authenticateUser, hsel]
      · rcases hcmp : comparePassword c.password u.password
        · simp [signin, hv, authenticateUser, hsel, hcmp]
        · simp [signin, hv, authenticateUser, hsel, hcmp]
    · simp [signin, hv]

/-- Witness for C3's amended theorem at concrete inputs. -/
theorem C3_write_effects_witness :
    ((signup [] 0 { name := "B", email := "b@x.com",
                    password := "pw12345" }).1.status = 201 →
      ∃ nu : User,
        (signup [] 0 { name := "B", email := "b@x.com",
                       password := "pw12345" }).2 = [] ++ [nu]) ∧
    ((signup [] 0 { name := "B", email := "b@x.com",
                    password := "pw12345" }).1.status ≠ 201 →
      (signup [] 0 { name := "B", email := "b@x.com",
                     password := "pw12345" }).2 = []) ∧
    (signin [] { email := "b@x.com", password := "pw12345" }).2 = [] :=
  C3_write_effects [] 0
    { name := "B", email := "b@x.com", password := "pw12345" }
    { email := "b@x.com", password := "pw12345" }

/-! ## C4 -/

/-- When the validation and both authorization checks pass, the update
handler is the service call with the 404/200 mapping. -/
theorem updateUserC_service (caller : Claims) (db : DB) (now id : Nat)
    (p : UpdatePatch) (hv : updateValidate p = true)
    (h1 : ¬ (caller.role ≠ "admin" ∧ caller.id ≠ id))
    (h2 : ¬ (truthy p.role = true ∧ caller.role ≠ "admin")) :
    updateUserC caller db now id p =
      match updateUser db id p now with
      | .error _ => ({ status := 404, body := .err "User not found" }, db)
      | .ok (u, db') => ({ status := 200, body := .oneUser u }, db') := by
  unfold updateUserC
  rw [if_neg (not_not_intro hv), if_neg h1, if_neg h2]

/-- C4: for a validated update request — a caller who is neither the
target nor an admin gets 403 with no row changed; a truthy role field
from a non-admin caller gets 403 with no row changed; an admin's role
change persists on every row with the target id; a (non-empty) password
in the patch is stored re-hashed whenever the request reaches the
service; and when the authorization checks pass but no row has the id,
the answer is 404 with no row changed. -/
theorem C4_update_authorization (caller : Claims) (db : DB) (now : Nat)
    (id : Nat) (p : UpdatePatch) (hv : updateValidate p = true) :
    (caller.role ≠ "admin" → caller.id ≠ id →
      (updateUserC caller db now id p).1.status = 403 ∧
      (updateUserC caller db now id p).2 = db) ∧
    (caller.role ≠ "admin" → truthy p.role = true →
      (updateUserC caller db now id p).1.status = 403 ∧
      (updateUserC caller db now id p).2 = db) ∧
    (caller.role = "admin" → ∀ r, p.role = some r →
      ∀ u ∈ (updateUserC caller db now id p).2, u.id = id → u.role = r) ∧
    ((caller.role = "admin" ∨ caller.id = id) →
      (truthy p.role = true → caller.role = "admin") →
      ∀ pw, p.password = some pw → pw ≠ "" →
      ∀ u ∈ (updateUserC caller db now id p).2, u.id = id →
        u.password = hashPassword pw) ∧
    ((caller.role = "admin" ∨ caller.id = id) →
      (truthy p.role = true → caller.role = "admin") →
      (∀ u ∈ db, u.id ≠ id) →
      (updateUserC caller db now id p).1.status = 404 ∧
      (updateUserC caller db now id p).2 = db) := by
  refine ⟨?_, ?_, ?_, ?_, ?_⟩
  · intro hrole hid
    unfold updateUserC
    rw [if_neg (not_not_intro hv), if_pos ⟨hrole, hid⟩]
    exact ⟨rfl, rfl⟩
  · intro hrole htr
    by_cases hid : caller.id = id
    · unfold updateUserC
      rw [if_neg (not_not_intro hv), if_neg (fun h => h.2 hid),
        if_pos ⟨htr, hrole⟩]
      exact ⟨rfl, rfl⟩
    · unfold updateUserC
      rw [if_neg (not_not_intro hv), if_pos ⟨hrole, hid⟩]
      exact ⟨rfl, rfl⟩
  · intro hadm r hr u hu huid
    rw [updateUserC_service caller db now id p hv
      (fun h => h.1 hadm) (fun h => h.2 hadm)] at hu
    rcases hsel : selectById db id with _ | ⟨target, rest⟩
    · have habs : ∀ v ∈ db, v.id ≠ id := selectById_eq_nil.mp hsel
      rw [updateUser, hsel] at hu
      exact absurd huid (habs u hu)
    · rw [updateUser, hsel] at hu
      simp only [List.mem_map] at hu
      rcases hu with ⟨v, hv', hveq⟩
      by_cases hvid : v.id = id
      · rw [← hveq]
        simp [hvid, applyPatch, hr]
      · rw [← hveq] at huid
        simp [hvid] at huid
  · intro hauth hrole pw hpw hpwne u hu huid
    have hpass : ¬ (caller.role ≠ "admin" ∧ caller.id ≠ id) := by
      rcases hauth with h | h
      · exact fun hc => hc.1 h
      · exact fun hc => hc.2 h
    have hpass2 : ¬ (truthy p.role = true ∧ caller.role ≠ "admin") :=
      fun hc => hc.2 (hrole hc.1)
    rw [updateUserC_service caller db now id p hv hpass hpass2] at hu
    rcases hsel : selectById db id with _ | ⟨target, rest⟩
    · have habs : ∀ v ∈ db, v.id ≠ id := selectById_eq_nil.mp hsel
      rw [updateUser, hsel] at hu
      exact absurd huid (habs u hu)
    · rw [updateUser, hsel] at hu
      simp only [List.mem_map] at hu
      rcases hu with ⟨v, hv', hveq⟩
      by_cases hvid : v.id = id
      · rw [← hveq]
        simp [hvid, applyPatch, hpw, hpwne]
      · rw [← hveq] at huid
        simp [hvid] at huid
  · intro hauth hrole habs
    have hpass : ¬ (caller.role ≠ "admin" ∧ caller.id ≠ id) := by
      rcases hauth with h | h
      · exact fun hc => hc.1 h
      · exact fun hc => hc.2 h
    have hpass2 : ¬ (truthy p.role = true ∧ caller.role ≠ "admin") :=
      fun hc => hc.2 (hrole hc.1)
    have hsel : selectById db id = [] := selectById_eq_nil.mpr habs
    rw [updateUserC_service caller db now id p hv hpass hpass2,
      updateUser, hsel]
    exact ⟨rfl, rfl⟩

/-- Witness for C4 at a concrete input: an admin (id 1) updating user
id 2 with a role change and a new password. -/
theorem C4_update_authorization_witness :
    updateValidate { password := some "npw123", role := some "user" } = true ∧
    ((Claims.role { id := 1, email := "adm@x", role := "admin" } ≠ "admin" →
      Claims.id { id := 1, email := "adm@x", role := "admin" } ≠ 2 →
      (updateUserC { id := 1, email := "adm@x", role := "admin" }
          [{ id := 2, name := "B", email := "b@x",
             password := hashPassword "old", role := "user",
             created_at := 0, updated_at := 0 }] 5 2
          { password := some "npw123", role := some "user" }).1.status = 403 ∧
      (updateUserC { id := 1, email := "adm@x", role := "admin" }
          [{ id := 2, name := "B", email := "b@x",
             password := hashPassword "old", role := "user",
             created_at := 0, updated_at := 0 }] 5 2
          { password := some "npw123", role := some "user" }).2 =
        [{ id := 2, name := "B", email := "b@x",
           password := hashPassword "old", role := "user",
           created_at := 0, updated_at := 0 }]) ∧
    (Claims.role { id := 1, email := "adm@x", role := "admin" } ≠ "admin" →
      truthy (UpdatePatch.role
          { password := some "npw123", role := some "user" }) = true →
      (updateUserC { id := 1, email := "adm@x", role := "admin" }
          [{ id := 2, name := "B", email := "b@x",
             password := hashPassword "old", role := "user",
             created_at := 0, updated_at := 0 }] 5 2
          { password := some "npw123", role := some "user" }).1.status = 403 ∧
      (updateUserC { id := 1, email := "adm@x", role := "admin" }
          [{ id := 2, name := "B", email := "b@x",
             password := hashPassword "old", role := "user",
             created_at := 0, updated_at := 0 }] 5 2
          { password := some "npw123", role := some "user" }).2 =
        [{ id := 2, name := "B", email := "b@x",
           password := hashPassword "old", role := "user",
           created_at := 0, updated_at := 0 }]) ∧
    (Claims.role { id := 1, email := "adm@x", role := "admin" } = "admin" →
      ∀ r, UpdatePatch.role
          { password := some "npw123", role := some "user" } = some r →
      ∀ u ∈ (updateUserC { id := 1, email := "adm@x", role := "admin" }
          [{ id := 2, name := "B", email := "b@x",
             password := hashPassword "old", role := "user",
             created_at := 0, updated_at := 0 }] 5 2
          { password := some "npw123", role := some "user" }).2,
        u.id = 2 → u.role = r) ∧
    ((Claims.role { id := 1, email := "adm@x", role := "admin" } = "admin" ∨
        Claims.id { id := 1, email := "adm@x", role := "admin" } = 2) →
      (truthy (UpdatePatch.role
          { password := some "npw123", role := some "user" }) = true →
        Claims.role { id := 1, email := "adm@x", role := "admin" } = "admin") →
      ∀ pw, UpdatePatch.password
          { password := some "npw123", role := some "user" } = some pw →
      pw ≠ "" →
      ∀ u ∈ (updateUserC { id := 1, email := "adm@x", role := "admin" }
          [{ id := 2, name := "B", email := "b@x",
             password := hashPassword "old", role := "user",
             created_at := 0, updated_at := 0 }] 5 2
          { password := some "npw123", role := some "user" }).2,
        u.id = 2 → u.password = hashPassword pw) ∧
    ((Claims.role { id := 1, email := "adm@x", role := "admin" } = "admin" ∨
        Claims.id { id := 1, email := "adm@x", role := "admin" } = 2) →
      (truthy (UpdatePatch.role
          { password := some "npw123", role := some "user" }) = true →
        Claims.role { id := 1, email := "adm@x", role := "admin" } = "admin") →
      (∀ u ∈ ([{ id := 2, name := "B", email := "b@x",
                 password := hashPassword "old", role := "user",
                 created_at := 0, updated_at := 0 }] : DB), u.id ≠ 2) →
      (updateUserC { id := 1, email := "adm@x", role := "admin" }
          [{ id := 2, name := "B", email := "b@x",
             password := hashPassword "old", role := "user",
             created_at := 0, updated_at := 0 }] 5 2
          { password := some "npw123", role := some "user" }).1.status = 404 ∧
      (updateUserC { id := 1, email := "adm@x", role := "admin" }
          [{ id := 2, name := "B", email := "b@x",
             password := hashPassword "old", role := "user",
             created_at := 0, updated_at := 0 }] 5 2
          { password := some "npw123", role := some "user" }).2 =
        [{ id := 2, name := "B", email := "b@x",
           password := hashPassword "old", role := "user",
           created_at := 0, updated_at := 0 }])) :=
  ⟨by decide,
    C4_update_authorization { id := 1, email := "adm@x", role := "admin" }
      [{ id := 2, name := "B", email := "b@x",
         password := hashPassword "old", role := "user",
         created_at := 0, updated_at := 0 }] 5 2
      { password := some "npw123", role := some "user" } (by decide)⟩

/-! ## C5 -/

/-- C5: for a delete request — a caller who is neither the target nor an
admin gets 403; an admin targeting their own id gets 403 with the table
unchanged (the row remains); when the authorization checks pass and no
row has the id the answer is 404; otherwise the rows with the id are
removed and the deleted user's projection is returned with 200. -/
theorem C5_delete_authorization (caller : Claims) (db : DB) (id : Nat) :
    (caller.role ≠ "admin" → caller.id ≠ id →
      (deleteUserC caller db id).1.status = 403 ∧
      (deleteUserC caller db id).2 = db) ∧
    (caller.role = "admin" → caller.id = id →
      (deleteUserC caller db id).1.status = 403 ∧
      (deleteUserC caller db id).2 = db) ∧
    ((caller.role = "admin" ∧ caller.id ≠ id) ∨
        (caller.role ≠ "admin" ∧ caller.id = id) →
      ((∀ u ∈ db, u.id ≠ id) →
        (deleteUserC caller db id).1.status = 404 ∧
        (deleteUserC caller db id).2 = db) ∧
      (∀ u rest, selectById db id = u :: rest →
        (deleteUserC caller db id).1.status = 200 ∧
        (deleteUserC caller db id).1.body = .deletedUser (deletedViewOf u) ∧
        (deleteUserC caller db id).2 = db.filter (fun v => ¬ v.id == id))) := by
  have hdel : ∀ (h1 : ¬ (caller.role ≠ "admin" ∧ caller.id ≠ id))
      (h2 : ¬ (caller.role = "admin" ∧ caller.id = id)),
      deleteUserC caller db id =
        match deleteUser db id with
        | .error _ => ({ status := 404, body := .err "User not found" }, db)
        | .ok (u, db') => ({ status := 200, body := .deletedUser u }, db') := by
    intro h1 h2
    unfold deleteUserC
    rw [if_neg h1, if_neg h2]
  refine ⟨?_, ?_, ?_⟩
  · intro hrole hid
    unfold deleteUserC
    rw [if_pos ⟨hrole, hid⟩]
    exact ⟨rfl, rfl⟩
  · intro hrole hid
    unfold deleteUserC
    rw [if_neg (fun h => h.1 hrole), if_pos ⟨hrole, hid⟩]
    exact ⟨rfl, rfl⟩
  · intro hauth
    have h1 : ¬ (caller.role ≠ "admin" ∧ caller.id ≠ id) := by
      rcases hauth with ⟨h, _⟩ | ⟨_, h⟩
      · exact fun hc => hc.1 h
      · exact fun hc => hc.2 h
    have h2 : ¬ (caller.role = "admin" ∧ caller.id = id) := by
      rcases hauth with ⟨_, h⟩ | ⟨h, _⟩
      · exact fun hc => h hc.2
      · exact fun hc => h hc.1
    constructor
    · intro habs
      have hsel : selectById db id = [] := selectById_eq_nil.mpr habs
      rw [hdel h1 h2, deleteUser, hsel]
      exact ⟨rfl, rfl⟩
    · intro u rest hsel
      rw [hdel h1 h2, deleteUser, hsel]
      exact ⟨rfl, rfl, rfl⟩

/-- Witness for C5 at a concrete input: an admin (id 1) deleting user
id 2. -/
theorem C5_delete_authorization_witness :
    ((Claims.role { id := 1, email := "adm@x", role := "admin" } ≠ "admin" →
      Claims.id { id := 1, email := "adm@x", role := "admin" } ≠ 2 →
      (deleteUserC { id := 1, email := "adm@x", role := "admin" }
          [{ id := 2, name := "B", email := "b@x",
             password := hashPassword "old", role := "user",
             created_at := 0, updated_at := 0 }] 2).1.status = 403 ∧
      (deleteUserC { id := 1, email := "adm@x", role := "admin" }
          [{ id := 2, name := "B", email := "b@x",
             password := hashPassword "old", role := "user",
             created_at := 0, updated_at := 0 }] 2).2 =
        [{ id := 2, name := "B", email := "b@x",
           password := hashPassword "old", role := "user",
           created_at := 0, updated_at := 0 }]) ∧
    (Claims.role { id := 1, email := "adm@x", role := "admin" } = "admin" →
      Claims.id { id := 1, email := "adm@x", role := "admin" } = 2 →
      (deleteUserC { id := 1, email := "adm@x", role := "admin" }
          [{ id := 2, name := "B", email := "b@x",
             password := hashPassword "old", role := "user",
             created_at := 0, updated_at := 0 }] 2).1.status = 403 ∧
      (deleteUserC { id := 1, email := "adm@x", role := "admin" }
          [{ id := 2, name := "B", email := "b@x",
             password := hashPassword "old", role := "user",
             created_at := 0, updated_at := 0 }] 2).2 =
        [{ id := 2, name := "B", email := "b@x",
           password := hashPassword "old", role := "user",
           created_at := 0, updated_at := 0 }]) ∧
    ((Claims.role { id := 1, email := "adm@x", role := "admin" } = "admin" ∧
        Claims.id { id := 1, email := "adm@x", role := "admin" } ≠ 2) ∨
      (Claims.role { id := 1, email := "adm@x", role := "admin" } ≠ "admin" ∧
        Claims.id { id := 1, email := "adm@x", role := "admin" } = 2) →
      ((∀ u ∈ ([{ id := 2, name := "B", email := "b@x",
                  password := hashPassword "old", role := "user",
                  created_at := 0, updated_at := 0 }] : DB), u.id ≠ 2) →
        (deleteUserC { id := 1, email := "adm@x", role := "admin" }
            [{ id := 2, name := "B", email := "b@x",
               password := hashPassword "old", role := "user",
               created_at := 0, updated_at := 0 }] 2).1.status = 404 ∧
        (deleteUserC { id := 1, email := "adm@x", role := "admin" }
            [{ id := 2, name := "B", email := "b@x",
               password := hashPassword "old", role := "user",
               created_at := 0, updated_at := 0 }] 2).2 =
          [{ id := 2, name := "B", email := "b@x",
             password := hashPassword "old", role := "user",
             created_at := 0, updated_at := 0 }]) ∧
      (∀ u rest,
        selectById [{ id := 2, name := "B", email := "b@x",
                      password := hashPassword "old", role := "user",
                      created_at := 0, updated_at := 0 }] 2 = u :: rest →
        (deleteUserC { id := 1, email := "adm@x", role := "admin" }
            [{ id := 2, name := "B", email := "b@x",
               password := hashPassword "old", role := "user",
               created_at := 0, updated_at := 0 }] 2).1.status = 200 ∧
        (deleteUserC { id := 1, email := "adm@x", role := "admin" }
            [{ id := 2, name := "B", email := "b@x",
               password := hashPassword "old", role := "user",
               created_at := 0, updated_at := 0 }] 2).1.body =
          .deletedUser (deletedViewOf u) ∧
        (deleteUserC { id := 1, email := "adm@x", role := "admin" }
            [{ id := 2, name := "B", email := "b@x",
               password := hashPassword "old", role := "user",
               created_at := 0, updated_at := 0 }] 2).2 =
          List.filter (fun v => ¬ v.id == 2)
            [{ id := 2, name := "B", email := "b@x",
               password := hashPassword "old", role := "user",
               created_at := 0, updated_at := 0 }]))) :=
  C5_delete_authorization { id := 1, email := "adm@x", role := "admin" }
    [{ id := 2, name := "B", email := "b@x",
       password := hashPassword "old", role := "user",
       created_at := 0, updated_at := 0 }] 2

/-! ## C6 -/

/-- The patched row keeps the storage invariant when the patch passes
validation. -/
theorem applyPatch_password_hashed (p : UpdatePatch) (now : Nat) (u : User)
    (hval : updateValidate p = true)
    (hu : ∃ q : String, u.password = hashPassword q) :
    ∃ q : String, (applyPatch p now u).password = hashPassword q := by
  rcases hpw : p.password with _ | pw
  · simpa [applyPatch, hpw] using hu
  · have hne : pw ≠ "" := by
      simp only [updateValidate, hpw] at hval
      intro h
      subst h
      simp at hval
    exact ⟨pw, by simp [applyPatch, hpw, hne]⟩

/-- The sign-in handler never changes the table. -/
theorem signin_preserves_table (db : DB) (c : SigninBody) :
    (signin db c).2 = db := by
  by_cases hv : signinValidate c = true
  · rcases hsel : selectByEmail db c.email with _ | ⟨u, rest⟩
    · simp [signin, hv, authenticateUser, hsel]
    · rcases hcmp : comparePassword c.password u.password
      · simp [signin, hv, authenticateUser, hsel, hcmp]
      · simp [signin, hv, authenticateUser, hsel, hcmp]
  · simp [signin, hv]

/-- C6: the plaintext is never persisted — a hash is never its own
plaintext, the table invariant `PasswordsHashed` is preserved by
sign-up, sign-in, update and delete (a supplied password is stored only
through `hashPassword`) — and it is never transmitted: every projection
a response body is built from is unchanged when a row's password field
changes, so no response depends on (or can contain) the stored
password. -/
theorem C6_password_never_plain_never_sent :
    (∀ p : String, hashPassword p ≠ p) ∧
    (∀ (db : DB) (now : Nat) (b : SignupBody), PasswordsHashed db →
      PasswordsHashed (signup db now b).2) ∧
    (∀ (caller : Claims) (db : DB) (now id : Nat) (p : UpdatePatch),
      updateValidate p = true → PasswordsHashed db →
      PasswordsHashed (updateUserC caller db now id p).2) ∧
    (∀ (caller : Claims) (db : DB) (id : Nat), PasswordsHashed db →
      PasswordsHashed (deleteUserC caller db id).2) ∧
    (∀ (db : DB) (c : SigninBody), PasswordsHashed db →
      PasswordsHashed (signin db c).2) ∧
    (∀ (u : User) (q : String),
      authProjOf { u with password := q } = authProjOf u) ∧
    (∀ (u : User) (q : String),
      viewOf { u with password := q } = viewOf u) ∧
    (∀ (u : User) (q : String),
      deletedViewOf { u with password := q } = deletedViewOf u) := by
  refine ⟨?_, ?_, ?_, ?_, ?_, ?_, ?_, ?_⟩
  · intro p h
    have hlen := congrArg String.length h
    rw [show hashPassword p = "$2b$12$" ++ p from rfl,
      String.length_append] at hlen
    have h7 : ("$2b$12$" : String).length = 7 := rfl
    rw [h7] at hlen
    omega
  · intro db now b hdb
    by_cases hv : signupValidate b = true
    · by_cases hpos : 0 < (selectByEmail db b.email).length
      · simpa [signup, hv, createUser, hpos] using hdb
      · intro u hu
        simp [signup, hv, createUser, hpos] at hu
        rcases hu with hu | hu
        · exact hdb u hu
        · exact ⟨b.password, by rw [hu]⟩
    · simpa [signup, hv] using hdb
  · intro caller db now id p hval hdb
    by_cases h1 : caller.role ≠ "admin" ∧ caller.id ≠ id
    · unfold updateUserC
      rw [if_neg (not_not_intro hval), if_pos h1]
      exact hdb
    · by_cases h2 : truthy p.role = true ∧ caller.role ≠ "admin"
      · unfold updateUserC
        rw [if_neg (not_not_intro hval), if_neg h1, if_pos h2]
        exact hdb
      · rw [updateUserC_service caller db now id p hval h1 h2]
        rcases hsel : selectById db id with _ | ⟨target, rest⟩
        · rw [updateUser, hsel]
          exact hdb
        · rw [updateUser, hsel]
          intro u hu
          simp only [List.mem_map] at hu
          rcases hu with ⟨v, hv', hveq⟩
          by_cases hvid : v.id = id
          · rw [← hveq]
            simp only [hvid, beq_self_eq_true, if_true]
            exact applyPatch_password_hashed p now v hval (hdb v hv')
          · rw [← hveq]
            simp only [beq_iff_eq, hvid, if_false]
            exact hdb v hv'
  · intro caller db id hdb
    by_cases h1 : caller.role ≠ "admin" ∧ caller.id ≠ id
    · unfold deleteUserC
      rw [if_pos h1]
      exact hdb
    · by_cases h2 : caller.role = "admin" ∧ caller.id = id
      · unfold deleteUserC
        rw [if_neg h1, if_pos h2]
        exact hdb
      · unfold deleteUserC
        rw [if_neg h1, if_neg h2]
        rcases hsel : selectById db id with _ | ⟨target, rest⟩
        · rw [deleteUser, hsel]
          exact hdb
        · rw [deleteUser, hsel]
          intro u hu
          exact hdb u (List.mem_of_mem_filter hu)
  · intro db c hdb
    rw [signin_preserves_table]
    exact hdb
  · intro u q
    rfl
  · intro u q
    rfl
  · intro u q
    rfl

/-- Witness for C6's hypothesis-bearing conjuncts at a concrete input:
the empty table satisfies the invariant and keeps it across a
sign-up. -/
theorem C6_password_never_plain_never_sent_witness :
    PasswordsHashed ([] : DB) ∧
    PasswordsHashed (signup [] 0
      { name := "John", email := "john@example.com",
        password := "password123" }).2 :=
  ⟨by simp [PasswordsHashed],
    C6_password_never_plain_never_sent.2.1 [] 0
      { name := "John", email := "john@example.com",
        password := "password123" }
      (by simp [PasswordsHashed])⟩

/-! ## C7 -/

/-- C7: for a validated registration with a fresh email, sign-up answers
201 carrying some user id, and sign-in on the resulting table with the
same email and password answers 200 carrying the same id (and the same
name, email and role). -/
theorem C7_signup_then_signin_roundtrip (db : DB) (now : Nat)
    (b : SignupBody) (hv : signupValidate b = true)
    (hfresh : ∀ u ∈ db, u.email ≠ b.email) :
    (signup db now b).1.status = 201 ∧
    ∃ uid : Nat,
      (signup db now b).1.body =
        .signedUp uid b.name b.email (b.role.getD "user") ∧
      (signin (signup db now b).2
          { email := b.email, password := b.password }).1.status = 200 ∧
      (signin (signup db now b).2
          { email := b.email, password := b.password }).1.body =
        .signedIn uid b.name b.email (b.role.getD "user") := by
  have hnil : selectByEmail db b.email = [] := selectByEmail_eq_nil.mpr hfresh
  have hfil : db.filter (fun u => u.email == b.email) = [] := by
    rw [List.filter_eq_nil_iff]
    intro u hu
    simp [hfresh u hu]
  have hdb' : (signup db now b).2 =
      db ++ [{ id := nextId db, name := b.name, email := b.email
               password := hashPassword b.password
               role := b.role.getD "user"
               created_at := now, updated_at := now }] := by
    simp [signup, hv, createUser, hnil]
  have hsv : signinValidate { email := b.email, password := b.password } =
      true := by
    simp only [signupValidate, Bool.and_eq_true, decide_eq_true_eq] at hv
    simp only [signinValidate, Bool.and_eq_true, decide_eq_true_eq]
    exact ⟨hv.1.1.2, hv.1.2⟩
  have hsel' : selectByEmail (signup db now b).2 b.email =
      [{ id := nextId db, name := b.name, email := b.email
         password := hashPassword b.password
         role := b.role.getD "user"
         created_at := now, updated_at := now }] := by
    rw [hdb', selectByEmail, List.filter_append, hfil]
    simp
  refine ⟨by simp [signup, hv, createUser, hnil], nextId db,
    by simp [signup, hv, createUser, hnil, authProjOf], ?_, ?_⟩
  · simp [signin, hsv, authenticateUser, hsel', comparePassword]
  · simp [signin, hsv, authenticateUser, hsel', comparePassword, authProjOf]

/-- Witness for C7 at a concrete input. -/
theorem C7_signup_then_signin_roundtrip_witness :
    signupValidate { name := "John", email := "john@example.com",
                     password := "password123" } = true ∧
    (∀ u ∈ ([] : DB), u.email ≠ "john@example.com") ∧
    ((signup [] 0 { name := "John", email := "john@example.com",
                    password := "password123" }).1.status = 201 ∧
      ∃ uid : Nat,
        (signup [] 0 { name := "John", email := "john@example.com",
                       password := "password123" }).1.body =
          .signedUp uid "John" "john@example.com"
            (Option.getD none "user") ∧
        (signin (signup [] 0 { name := "John", email := "john@example.com",
                               password := "password123" }).2
            { email := "john@example.com",
              password := "password123" }).1.status = 200 ∧
        (signin (signup [] 0 { name := "John", email := "john@example.com",
                               password := "password123" }).2
            { email := "john@example.com",
              password := "password123" }).1.body =
          .signedIn uid "John" "john@example.com"
            (Option.getD none "user")) :=
  ⟨by decide, by simp,
    C7_signup_then_signin_roundtrip [] 0
      { name := "John", email := "john@example.com",
        password := "password123" } (by decide) (by simp)⟩

/-! ## C8 -/

/-- C8: on a protected route, an absent token cookie or a failed
verification short-circuits the request with 401, leaves the table
untouched, and the outcome is the same whatever the handler is — the
handler is never reached; a token that verifies proceeds straight to the
handler with the decoded claims attached. -/
theorem C8_middleware_gate (verify : String → Option Claims)
    (cookieToken : Option String) (db : DB)
    (h1 h2 : Claims → DB → Response × DB) :
    (cookieToken = none →
      (runProtected verify cookieToken db h1).1.status = 401 ∧
      runProtected verify cookieToken db h1 =
        runProtected verify cookieToken db h2 ∧
      (runProtected verify cookieToken db h1).2 = db) ∧
    (∀ t, cookieToken = some t → verify t = none →
      (runProtected verify cookieToken db h1).1.status = 401 ∧
      runProtected verify cookieToken db h1 =
        runProtected verify cookieToken db h2 ∧
      (runProtected verify cookieToken db h1).2 = db) ∧
    (∀ t c, cookieToken = some t → verify t = some c →
      runProtected verify cookieToken db h1 = h1 c db) := by
  refine ⟨?_, ?_, ?_⟩
  · intro hnone
    subst hnone
    exact ⟨rfl, rfl, rfl⟩
  · intro t hsome hfail
    subst hsome
    simp [runProtected, authenticateToken, hfail]
  · intro t c hsome hok
    subst hsome
    simp [runProtected, authenticateToken, hok]

/-- Witness for C8 at a concrete input: a verifier that rejects
everything, no cookie, and two distinct handlers. -/
theorem C8_middleware_gate_witness :
    (runProtected (fun _ => none) none []
        (fun _ db => ({ status := 200, body := .signedOut }, db))).1.status =
      401 ∧
    runProtected (fun _ => none) none []
        (fun _ db => ({ status := 200, body := .signedOut }, db)) =
      runProtected (fun _ => none) none []
        (fun _ db => ({ status := 204, body := .signedOut }, db)) ∧
    (runProtected (fun _ => none) none []
        (fun _ db => ({ status := 200, body := .signedOut }, db))).2 = [] :=
  (C8_middleware_gate (fun _ => none) none []
      (fun _ db => ({ status := 200, body := .signedOut }, db))
      (fun _ db => ({ status := 204, body := .signedOut }, db))).1 rfl

/-! ## C9 -/

/-- C9: every successful sign-up (fresh validated email) answers 201 and
sets the `token` cookie to the jwt signed over `{id, email, role}` of
the newly inserted user — registration immediately authenticates the
caller. -/
theorem C9_signup_issues_token_cookie (db : DB) (now : Nat)
    (b : SignupBody) (hv : signupValidate b = true)
    (hfresh : ∀ u ∈ db, u.email ≠ b.email) :
    ∃ nu : User,
      (signup db now b).2 = db ++ [nu] ∧
      (signup db now b).1.status = 201 ∧
      (signup db now b).1.cookie =
        some ("token",
          jwtSign { id := nu.id, email := nu.email, role := nu.role }) := by
  have hnil : selectByEmail db b.email = [] := selectByEmail_eq_nil.mpr hfresh
  refine ⟨{ id := nextId db, name := b.name, email := b.email
            password := hashPassword b.password
            role := b.role.getD "user"
            created_at := now, updated_at := now }, ?_, ?_, ?_⟩
  · simp [signup, hv, createUser, hnil]
  · simp [signup, hv, createUser, hnil]
  · simp [signup, hv, createUser, hnil, authProjOf]

/-- Witness for C9 at a concrete input. -/
theorem C9_signup_issues_token_cookie_witness :
    signupValidate { name := "John", email := "john@example.com",
                     password := "password123" } = true ∧
    (∀ u ∈ ([] : DB), u.email ≠ "john@example.com") ∧
    (∃ nu : User,
      (signup [] 0 { name := "John", email := "john@example.com",
                     password := "password123" }).2 = [] ++ [nu] ∧
      (signup [] 0 { name := "John", email := "john@example.com",
                     password := "password123" }).1.status = 201 ∧
      (signup [] 0 { name := "John", email := "john@example.com",
                     password := "password123" }).1.cookie =
        some ("token",
          jwtSign { id := nu.id, email := nu.email, role := nu.role })) :=
  ⟨by decide, by simp,
    C9_signup_issues_token_cookie [] 0
      { name := "John", email := "john@example.com",
        password := "password123" } (by decide) (by simp)⟩

/-! ## C10 -/

/-- C10: no read is restricted by role or ownership — the only
middleware on any users route is `authenticateToken` (the `requireRole`
guard is attached to no route); the list and get-by-id handlers answer
identically for any two authenticated callers whatever their roles; the
list handler returns every user's projection with its count; and
get-by-id answers 200 with the projection of any existing user. -/
theorem C10_reads_unrestricted :
    (∀ r ∈ userRoutes, ∀ m ∈ r.2.2.1, m = Mw.authenticate) ∧
    (∀ (c₁ c₂ : Claims) (db : DB),
      getAllUsersC c₁ db = getAllUsersC c₂ db) ∧
    (∀ (c : Claims) (db : DB),
      (getAllUsersC c db).1.status = 200 ∧
      (getAllUsersC c db).1.body =
        .userList (db.map viewOf) (db.map viewOf).length) ∧
    (∀ (c₁ c₂ : Claims) (db : DB) (id : Nat),
      getUserByIdC c₁ db id = getUserByIdC c₂ db id) ∧
    (∀ (c : Claims) (db : DB) (id : Nat) (u : User) (rest : List User),
      selectById db id = u :: rest →
      (getUserByIdC c db id).1.status = 200 ∧
      (getUserByIdC c db id).1.body = .oneUser (viewOf u)) := by
  refine ⟨?_, ?_, ?_, ?_, ?_⟩
  · intro r hr m hm
    fin_cases hr <;> simpa using hm
  · intro c₁ c₂ db
    rfl
  · intro c db
    exact ⟨rfl, rfl⟩
  · intro c₁ c₂ db id
    rfl
  · intro c db id u rest hsel
    rw [getUserByIdC, getUserById, hsel]
    exact ⟨rfl, rfl⟩

/-- Witness for C10 at a concrete input: two callers with different
roles reading an existing user. -/
theorem C10_reads_unrestricted_witness :
    selectById [{ id := 2, name := "B", email := "b@x",
                  password := hashPassword "old", role := "user",
                  created_at := 0, updated_at := 0 }] 2 =
      [{ id := 2, name := "B", email := "b@x",
         password := hashPassword "old", role := "user",
         created_at := 0, updated_at := 0 }] ∧
    ((getUserByIdC { id := 7, email := "c@x", role := "user" }
        [{ id := 2, name := "B", email := "b@x",
           password := hashPassword "old", role := "user",
           created_at := 0, updated_at := 0 }] 2).1.status = 200 ∧
      (getUserByIdC { id := 7, email := "c@x", role := "user" }
        [{ id := 2, name := "B", email := "b@x",
           password := hashPassword "old", role := "user",
           created_at := 0, updated_at := 0 }] 2).1.body =
        .oneUser (viewOf { id := 2, name := "B", email := "b@x",
                           password := hashPassword "old", role := "user",
                           created_at := 0, updated_at := 0 })) :=
  ⟨by decide,
    C10_reads_unrestricted.2.2.2.2 { id := 7, email := "c@x", role := "user" }
      [{ id := 2, name := "B", email := "b@x",
         password := hashPassword "old", role := "user",
         created_at := 0, updated_at := 0 }] 2
      { id := 2, name := "B", email := "b@x",
        password := hashPassword "old", role := "user",
        created_at := 0, updated_at := 0 } [] (by decide)⟩

end Acq
